import Mathlib

/-
  Shallow embedding of drivers/gpu/drm/panel/panel-novatek-nt35950.c.

  The driver is sequential C code that talks to hardware through a few
  side-effecting primitives (regulator enable/disable, gpio set, DSI
  transport writes, sleeps).  We embed it as a state-passing computation:
  an Env chooses the return value of every fallible external call (writes
  are numbered by occurrence, regulator calls by rail index), the NtState
  carries the mutable driver state (mode flags, rail on/off, reset level,
  prepared flag), and a trace of Events records every externally visible
  action in order.  Dereferencing the secondary DSI handle when it is
  absent is modelled as a distinguished crash outcome.
-/

structure PanelDesc where
  num_lanes : Nat
  enable_sram : Bool
  is_video_mode : Bool
  is_dual_dsi : Bool
deriving DecidableEq, Repr

structure DsiDev where
  lanes : Nat
  videoMode : Bool
  lpm : Bool
deriving DecidableEq, Repr

structure NtState where
  desc : PanelDesc
  dsi0 : DsiDev
  dsi1 : Option DsiDev
  railEnabled : List Bool
  resetLevel : Nat
  prepared : Bool
deriving DecidableEq, Repr

inductive DcsOp where
  | tearOnVblank
  | tearScanline (line : Nat)
  | exitSleep
  | displayOn
  | displayOff
  | enterSleep
deriving DecidableEq, Repr

inductive Event where
  | regEnable (i : Nat)
  | usleep (lo hi : Nat)
  | msleep (ms : Nat)
  | gpioSet (v : Nat)
  | write (dsiIdx : Nat) (bytes : List Nat)
  | dcs (dsiIdx : Nat) (op : DcsOp)
  | bulkDisable
  | logErr
  | bulkGet
  | voltCheck (i lo hi : Nat)
deriving DecidableEq, Repr

structure Env where
  writeRet : Nat → Int
  regRet : Nat → Int
  bulkGetRet : Int
  voltRet : Nat → Int
  gpioGetOk : Bool
  gpioGetErr : Int
  dsiRNodeFound : Bool
  dsiRHostFound : Bool
  dsiRRegisterOk : Bool
  backlightRet : Int
  attachRet : Nat → Int

inductive Outcome (α : Type) where
  | ok (a : α)
  | crash
deriving DecidableEq, Repr

def DsiM (α : Type) : Type :=
  Env → NtState → Nat → Outcome (α × NtState × List Event × Nat)

def DsiM.pure {α : Type} (a : α) : DsiM α := fun _ st wc => .ok (a, st, [], wc)

def DsiM.bind {α β : Type} (x : DsiM α) (f : α → DsiM β) : DsiM β := fun env st wc =>
  match x env st wc with
  | .crash => .crash
  | .ok (a, st1, tr1, wc1) =>
    match f a env st1 wc1 with
    | .crash => .crash
    | .ok (b, st2, tr2, wc2) => .ok (b, st2, tr1 ++ tr2, wc2)

instance : Monad DsiM where
  pure := DsiM.pure
  bind := DsiM.bind

theorem DsiM.bind_eq {α β : Type} (x : DsiM α) (f : α → DsiM β) :
    (x >>= f) = DsiM.bind x f := rfl

theorem DsiM.pure_eq {α : Type} (a : α) : (Pure.pure a : DsiM α) = DsiM.pure a := rfl

def getEnv : DsiM Env := fun env st wc => .ok (env, st, [], wc)

def getSt : DsiM NtState := fun _ st wc => .ok (st, st, [], wc)

def modSt (f : NtState → NtState) : DsiM Unit := fun _ st wc => .ok ((), f st, [], wc)

def emit (e : Event) : DsiM Unit := fun _ st wc => .ok ((), st, [e], wc)

def crashNow {α : Type} : DsiM α := fun _ _ _ => .crash

def nextWrite : DsiM Int := fun env st wc => .ok (env.writeRet wc, st, [], wc + 1)

def usleep_range (lo hi : Nat) : DsiM Unit := emit (.usleep lo hi)

def msleep (ms : Nat) : DsiM Unit := emit (.msleep ms)

def logErr : DsiM Unit := emit .logErr

def gpiod_set_value (v : Nat) : DsiM Unit := do
  emit (.gpioSet v)
  modSt fun st => { st with resetLevel := v }

def regulator_enable (i : Nat) : DsiM Int := do
  emit (.regEnable i)
  let env ← getEnv
  if env.regRet i = 0 then do
    modSt fun st => { st with railEnabled := st.railEnabled.set i true }
    pure 0
  else
    pure (env.regRet i)

def regulator_bulk_disable : DsiM Unit := do
  emit .bulkDisable
  modSt fun st => { st with railEnabled := List.replicate 6 false }

def mipi_dsi_dcs_write_buffer (dsiIdx : Nat) (bytes : List Nat) : DsiM Int := do
  emit (.write dsiIdx bytes)
  nextWrite

def dcsTransfer (dsiIdx : Nat) (op : DcsOp) : DsiM Int := do
  emit (.dcs dsiIdx op)
  nextWrite

def setLpm0 (b : Bool) : DsiM Unit :=
  modSt fun st => { st with dsi0 := { st.dsi0 with lpm := b } }

def setLpm1 (b : Bool) : DsiM Unit := do
  let st ← getSt
  match st.dsi1 with
  | none => crashNow
  | some d => modSt fun s => { s with dsi1 := some { d with lpm := b } }

/- Embedded driver functions, translated line by line from the C source. -/

def nt35950_reset : DsiM Unit := do
  gpiod_set_value 1
  usleep_range 12000 13000
  gpiod_set_value 0
  usleep_range 300 400
  gpiod_set_value 1
  usleep_range 12000 13000

def nt35950_set_cmd2_page (page : Nat) : DsiM Int :=
  mipi_dsi_dcs_write_buffer 0 [0xf0, 0x55, 0xaa, 0x52, 0x08, page]

def nt35950_set_data_compression (compMode : Nat) : DsiM Int :=
  mipi_dsi_dcs_write_buffer 0 [0x90, compMode]

def nt35950_set_scaler (scaleUp : Nat) : DsiM Int :=
  mipi_dsi_dcs_write_buffer 0 [0x58, scaleUp]

def nt35950_inject_black_image : DsiM Int := do
  let r ← mipi_dsi_dcs_write_buffer 0 [0xff, 0xaa, 0x55, 0xa5, 0x80]
  if r < 0 then pure r else do
  let r1 ← mipi_dsi_dcs_write_buffer 0 [0x6f, 0x01]
  if r1 < 0 then pure r1 else do
  let r2 ← mipi_dsi_dcs_write_buffer 0 [0xf3, 0x10]
  if r2 < 0 then pure r2 else
  mipi_dsi_dcs_write_buffer 0 [0xff, 0xaa, 0x55, 0xa5, 0x00]

def nt35950_set_dispout : DsiM Int := do
  let st ← getSt
  let v1 : Nat := if st.desc.is_video_mode then 0x10 else 0x00
  let v2 : Nat := if st.desc.enable_sram then Nat.lor v1 0x01 else v1
  mipi_dsi_dcs_write_buffer 0 [0xb4, v2]

def nt35950_on : DsiM Int := do
  setLpm0 true
  setLpm1 true
  let r1 ← nt35950_set_cmd2_page 7
  if r1 < 0 then pure r1 else do
  let r2 ← mipi_dsi_dcs_write_buffer 0 [0xe3, 0x01]
  if r2 < 0 then pure r2 else do
  let r3 ← mipi_dsi_dcs_write_buffer 0 [0xef, 0x01]
  if r3 < 0 then pure r3 else do
  let r4 ← nt35950_set_cmd2_page 0
  if r4 < 0 then pure r4 else do
  let r5 ← mipi_dsi_dcs_write_buffer 0 [0xc9, 0x01]
  if r5 < 0 then pure r5 else do
  let r6 ← nt35950_set_data_compression 0x00
  if r6 < 0 then pure r6 else do
  let r7 ← nt35950_set_scaler 1
  if r7 < 0 then pure r7 else do
  let r8 ← nt35950_set_dispout
  if r8 < 0 then pure r8 else do
  let r9 ← mipi_dsi_dcs_write_buffer 0
    [0xbd, 0x00, 0xac, 0x0c, 0x0c, 0x00, 0x01, 0x56, 0x09, 0x09, 0x01, 0x01,
     0x0c, 0x0c, 0x00, 0xd9]
  if r9 < 0 then pure r9 else do
  let r10 ← dcsTransfer 0 .tearOnVblank
  if r10 < 0 then do
    logErr
    pure r10
  else do
  let r11 ← dcsTransfer 0 (.tearScanline 0)
  if r11 < 0 then do
    logErr
    pure r11
  else do
  let r12 ← nt35950_set_cmd2_page 1
  if r12 < 0 then pure r12 else do
  let r13 ← mipi_dsi_dcs_write_buffer 0 [0xd4, 0x88, 0x88]
  if r13 < 0 then pure r13 else do
  let r14 ← nt35950_inject_black_image
  if r14 < 0 then pure r14 else do
  let r15 ← dcsTransfer 0 .exitSleep
  if r15 < 0 then pure r15 else do
  msleep 120
  let r16 ← dcsTransfer 0 .displayOn
  if r16 < 0 then pure r16 else do
  msleep 120
  setLpm0 false
  setLpm1 false
  pure 0

def nt35950_off : DsiM Int := do
  let r1 ← dcsTransfer 0 .displayOff
  if r1 < 0 then do
    logErr
    pure r1
  else do
  usleep_range 10000 11000
  let r2 ← dcsTransfer 0 .enterSleep
  if r2 < 0 then do
    logErr
    pure r2
  else do
  msleep 150
  setLpm0 true
  setLpm1 true
  pure 0

def devm_regulator_bulk_get : DsiM Int := do
  emit .bulkGet
  let env ← getEnv
  pure env.bulkGetRet

def regulator_is_supported_voltage (i lo hi : Nat) : DsiM Int := do
  emit (.voltCheck i lo hi)
  let env ← getEnv
  pure (env.voltRet i)

def nt35950_sharp_init_vregs : DsiM Int := do
  let r ← devm_regulator_bulk_get
  if r < 0 then do
    logErr
    pure r
  else do
  let r0 ← regulator_is_supported_voltage 0 1750000 1950000
  if r0 = 0 then pure r0 else do
  let r1 ← regulator_is_supported_voltage 1 1750000 1950000
  if r1 = 0 then pure r1 else do
  let r2 ← regulator_is_supported_voltage 2 2800000 3300000
  if r2 = 0 then pure r2 else do
  let r3 ← regulator_is_supported_voltage 3 5200000 5900000
  if r3 = 0 then pure r3 else do
  let r4 ← regulator_is_supported_voltage 4 5200000 5900000
  if r4 = 0 then pure r4 else
  regulator_is_supported_voltage 5 1300000 1400000

def nt35950_prepare : DsiM Int := do
  let st ← getSt
  if st.prepared then pure 0 else do
  let r0 ← regulator_enable 0
  if r0 ≠ 0 then pure r0 else do
  usleep_range 2000 5000
  let r5 ← regulator_enable 5
  if r5 ≠ 0 then pure r5 else do
  usleep_range 15000 18000
  let r3 ← regulator_enable 3
  if r3 ≠ 0 then pure r3 else do
  let r4 ← regulator_enable 4
  if r4 ≠ 0 then pure r4 else do
  usleep_range 12000 13000
  let r1 ← regulator_enable 1
  if r1 ≠ 0 then pure r1 else do
  let r2 ← regulator_enable 2
  if r2 ≠ 0 then pure r2 else do
  usleep_range 15000 16000
  nt35950_reset
  let ron ← nt35950_on
  if ron < 0 then do
    logErr
    regulator_bulk_disable
    pure ron
  else do
  modSt fun s => { s with prepared := true }
  pure 0

def nt35950_unprepare : DsiM Int := do
  let st ← getSt
  if st.prepared = false then pure 0 else do
  let roff ← nt35950_off
  if roff < 0 then logErr else pure ()
  gpiod_set_value 0
  regulator_bulk_disable
  modSt fun s => { s with prepared := false }
  pure 0

def setDsiFields (idx : Nat) : DsiM Unit := do
  let st ← getSt
  if idx = 0 then
    modSt fun s =>
      { s with dsi0 := { lanes := s.desc.num_lanes,
                         videoMode := s.desc.is_video_mode, lpm := true } }
  else
    match st.dsi1 with
    | none => crashNow
    | some _ =>
      modSt fun s =>
        { s with dsi1 := some { lanes := s.desc.num_lanes,
                                videoMode := s.desc.is_video_mode, lpm := true } }

def configAttach (idx : Nat) : DsiM Int := do
  setDsiFields idx
  let env ← getEnv
  if env.attachRet idx < 0 then do
    logErr
    pure (env.attachRet idx)
  else
    pure (env.attachRet idx)

def probeFinish : DsiM Int := do
  gpiod_set_value 0
  pure 0

def probeLoop (n : Nat) : DsiM Int := do
  let r0 ← configAttach 0
  if r0 < 0 then pure r0 else
  if n = 2 then do
    let r1 ← configAttach 1
    if r1 < 0 then pure r1 else probeFinish
  else probeFinish

def probeBacklight (n : Nat) : DsiM Int := do
  let env ← getEnv
  if env.backlightRet ≠ 0 then do
    logErr
    pure env.backlightRet
  else probeLoop n

def nt35950_probe : DsiM Int := do
  let r ← nt35950_sharp_init_vregs
  if r ≠ 0 ∧ r ≠ -517 then logErr else pure ()
  let env ← getEnv
  if env.gpioGetOk = false then do
    logErr
    pure env.gpioGetErr
  else do
  let st ← getSt
  if st.desc.is_dual_dsi then
    if env.dsiRNodeFound = false then do
      logErr
      pure (-19)
    else if env.dsiRHostFound = false then do
      logErr
      pure (-517)
    else if env.dsiRRegisterOk = false then do
      logErr
      pure (-19)
    else do
      modSt fun s => { s with dsi1 := some { lanes := 0, videoMode := false, lpm := false } }
      probeBacklight 2
  else probeBacklight 1

/- Concrete descriptor, states and environments used by the theorems. -/

def sharp_ls055d1sx04 : PanelDesc :=
  { num_lanes := 4, enable_sram := true, is_video_mode := false, is_dual_dsi := true }

def preSt (desc : PanelDesc) : NtState :=
  { desc := desc, dsi0 := { lanes := 0, videoMode := false, lpm := false },
    dsi1 := none, railEnabled := List.replicate 6 false,
    resetLevel := 0, prepared := false }

def allOkEnv : Env :=
  { writeRet := fun _ => 1, regRet := fun _ => 0, bulkGetRet := 0,
    voltRet := fun _ => 1, gpioGetOk := true, gpioGetErr := 0,
    dsiRNodeFound := true, dsiRHostFound := true, dsiRRegisterOk := true,
    backlightRet := 0, attachRet := fun _ => 0 }

def envRegFail (i : Nat) (e : Int) : Env :=
  { allOkEnv with regRet := fun j => if j = i then e else 0 }

def envWriteFail (k : Nat) (e : Int) : Env :=
  { allOkEnv with writeRet := fun j => if j = k then e else 1 }

def envBulkGetFail (e : Int) : Env := { allOkEnv with bulkGetRet := e }

def envVoltFail (i : Nat) : Env :=
  { allOkEnv with voltRet := fun j => if j = i then 0 else 1 }

def st0 : NtState :=
  { desc := sharp_ls055d1sx04,
    dsi0 := { lanes := 4, videoMode := false, lpm := true },
    dsi1 := some { lanes := 4, videoMode := false, lpm := true },
    railEnabled := List.replicate 6 false, resetLevel := 0, prepared := false }

def stLpm (b0 b1 : Bool) : NtState :=
  { st0 with dsi0 := { lanes := 4, videoMode := false, lpm := b0 },
             dsi1 := some { lanes := 4, videoMode := false, lpm := b1 } }

def runOf {α : Type} (m : DsiM α) (env : Env) (st : NtState) (wc : Nat) :
    Option (α × NtState × List Event × Nat) :=
  match m env st wc with
  | .ok x => some x
  | .crash => none

def isPowerEvent : Event → Bool
  | .regEnable _ => true
  | .usleep _ _ => true
  | .gpioSet _ => true
  | _ => false

def isTransportWrite : Event → Bool
  | .write _ _ => true
  | .dcs _ _ => true
  | _ => false

def hasBulkDisable : List Event → Bool
  | [] => false
  | .bulkDisable :: _ => true
  | _ :: tl => hasBulkDisable tl

def hasEnterSleep : List Event → Bool
  | [] => false
  | .dcs _ .enterSleep :: _ => true
  | _ :: tl => hasEnterSleep tl

def railsBeforeFail : Nat → List Bool
  | 0 => [false, false, false, false, false, false]
  | 5 => [true, false, false, false, false, false]
  | 3 => [true, false, false, false, false, true]
  | 4 => [true, false, false, true, false, true]
  | 1 => [true, false, false, true, true, true]
  | 2 => [true, true, false, true, true, true]
  | _ => []

def onThenOff : DsiM (Int × Int) := do
  let r1 ← nt35950_on
  let r2 ← nt35950_off
  pure (r1, r2)


attribute [simp] DsiM.bind DsiM.pure DsiM.bind_eq DsiM.pure_eq getEnv getSt modSt
  emit crashNow nextWrite usleep_range msleep logErr gpiod_set_value
  regulator_enable regulator_bulk_disable mipi_dsi_dcs_write_buffer dcsTransfer
  setLpm0 setLpm1 nt35950_reset nt35950_set_cmd2_page nt35950_set_data_compression
  nt35950_set_scaler nt35950_inject_black_image nt35950_set_dispout
  devm_regulator_bulk_get regulator_is_supported_voltage setDsiFields
  configAttach probeFinish probeLoop probeBacklight runOf

/-- Claim C9: for every page number 0..7, nt35950_set_cmd2_page transmits exactly
the fixed 6-byte sequence 0xF0 0x55 0xAA 0x52 0x08 page as a single write
addressed to endpoint 0 only, returning the transport result unchanged. -/
theorem nt35950_set_cmd2_page_bytes (env : Env) (st : NtState) (wc : Nat)
    (page : Nat) (hp : page ≤ 7) :
    nt35950_set_cmd2_page page env st wc =
      .ok (env.writeRet wc, st,
           [Event.write 0 [0xf0, 0x55, 0xaa, 0x52, 0x08, page]], wc + 1) := rfl

/-- Witness for C9 at page 3 in the all-success environment. -/
theorem nt35950_set_cmd2_page_bytes_witness :
    3 ≤ 7 ∧
    nt35950_set_cmd2_page 3 allOkEnv st0 0 =
      .ok (allOkEnv.writeRet 0, st0,
           [Event.write 0 [0xf0, 0x55, 0xaa, 0x52, 0x08, 3]], 0 + 1) :=
  ⟨by decide, nt35950_set_cmd2_page_bytes allOkEnv st0 0 3 (by decide)⟩

/-- Claim C4: prepare is a no-op returning success when already prepared, and
unprepare is a no-op returning success when not prepared: no events at all
(hence zero transport writes and zero rail or reset operations), state
unchanged. -/
theorem nt35950_lifecycle_idempotent (env : Env) (st : NtState) (wc : Nat) :
    (st.prepared = true → nt35950_prepare env st wc = .ok (0, st, [], wc)) ∧
    (st.prepared = false → nt35950_unprepare env st wc = .ok (0, st, [], wc)) := by
  constructor
  · intro h
    simp [nt35950_prepare, h]
  · intro h
    simp [nt35950_unprepare, h]

/-- Witness for C4: second prepare on a prepared panel and unprepare on an
unprepared panel both do nothing and succeed. -/
theorem nt35950_lifecycle_idempotent_witness :
    ({ st0 with prepared := true } : NtState).prepared = true ∧
    st0.prepared = false ∧
    nt35950_prepare allOkEnv { st0 with prepared := true } 0 =
      .ok (0, { st0 with prepared := true }, [], 0) ∧
    nt35950_unprepare allOkEnv st0 0 = .ok (0, st0, [], 0) :=
  ⟨by decide, by decide,
   (nt35950_lifecycle_idempotent allOkEnv { st0 with prepared := true } 0).1 (by decide),
   (nt35950_lifecycle_idempotent allOkEnv st0 0).2 (by decide)⟩

/-- Claim C5: on the fully successful path, prepare enables the rails in the
fixed order vio(0), dvdd(5), avdd(3)+avee(4), tvddio(1), tavdd(2) with settle
ranges 2-5ms, 15-18ms, 12-13ms, 15-16ms after the groups, then pulses reset
high 12-13ms, low 0.3-0.4ms, high 12-13ms, leaving the reset line at 1 on
return with the call succeeding. -/
theorem nt35950_prepare_power_sequence :
    (runOf nt35950_prepare allOkEnv st0 0).map
      (fun x => (x.1, x.2.2.1.filter isPowerEvent, x.2.1.resetLevel, x.2.1.prepared)) =
      some (0,
        [Event.regEnable 0, Event.usleep 2000 5000,
         Event.regEnable 5, Event.usleep 15000 18000,
         Event.regEnable 3, Event.regEnable 4, Event.usleep 12000 13000,
         Event.regEnable 1, Event.regEnable 2, Event.usleep 15000 16000,
         Event.gpioSet 1, Event.usleep 12000 13000,
         Event.gpioSet 0, Event.usleep 300 400,
         Event.gpioSet 1, Event.usleep 12000 13000],
        1, true) := by decide

/-- Counterexample to claim C6 as stated: a fully successful run of the
on-script performs 19 transport writes, not 13. -/
theorem nt35950_on_thirteen_writes_cex :
    (runOf nt35950_on allOkEnv st0 0).map
      (fun x => (x.2.2.1.filter isTransportWrite).length) = some 19 ∧
    (runOf nt35950_on allOkEnv st0 0).map
      (fun x => (x.2.2.1.filter isTransportWrite).length) ≠ some 13 := by decide

/-- Claim C6 (amended): a fully successful run of the on-script performs
exactly 19 transport writes, matching the fixed on-sequence byte patterns,
and ends with the low-power-mode flag cleared on both endpoints. -/
theorem nt35950_on_write_sequence :
    (runOf nt35950_on allOkEnv st0 0).map
      (fun x => (x.1, x.2.2.1.filter isTransportWrite, x.2.1.dsi0.lpm,
                 (x.2.1.dsi1).map DsiDev.lpm)) =
      some (0,
        [Event.write 0 [0xf0, 0x55, 0xaa, 0x52, 0x08, 0x07],
         Event.write 0 [0xe3, 0x01],
         Event.write 0 [0xef, 0x01],
         Event.write 0 [0xf0, 0x55, 0xaa, 0x52, 0x08, 0x00],
         Event.write 0 [0xc9, 0x01],
         Event.write 0 [0x90, 0x00],
         Event.write 0 [0x58, 0x01],
         Event.write 0 [0xb4, 0x01],
         Event.write 0 [0xbd, 0x00, 0xac, 0x0c, 0x0c, 0x00, 0x01, 0x56, 0x09,
                        0x09, 0x01, 0x01, 0x0c, 0x0c, 0x00, 0xd9],
         Event.dcs 0 DcsOp.tearOnVblank,
         Event.dcs 0 (DcsOp.tearScanline 0),
         Event.write 0 [0xf0, 0x55, 0xaa, 0x52, 0x08, 0x01],
         Event.write 0 [0xd4, 0x88, 0x88],
         Event.write 0 [0xff, 0xaa, 0x55, 0xa5, 0x80],
         Event.write 0 [0x6f, 0x01],
         Event.write 0 [0xf3, 0x10],
         Event.write 0 [0xff, 0xaa, 0x55, 0xa5, 0x00],
         Event.dcs 0 DcsOp.exitSleep,
         Event.dcs 0 DcsOp.displayOn],
        false, some false) := by decide

/-- Counterexample to claim C8 as stated: starting with the low-power-mode
flag cleared on both endpoints, a successful run_on followed by a successful
run_off leaves the flag set on both endpoints, so the pre-run_on value is not
restored. -/
theorem nt35950_on_off_lpm_cex :
    (stLpm false false).dsi0.lpm = false ∧
    ((stLpm false false).dsi1).map DsiDev.lpm = some false ∧
    (runOf onThenOff allOkEnv (stLpm false false) 0).map
      (fun x => (x.1, x.2.1.dsi0.lpm, (x.2.1.dsi1).map DsiDev.lpm)) =
      some ((0, 0), true, some true) := by decide

/-- Claim C8 (amended): for every initial value of the low-power-mode flag on
the two endpoints, a successful run_on followed immediately by a successful
run_off leaves the flag set on both endpoints; the pre-run_on value is
restored exactly when the flag was initially set. -/
theorem nt35950_on_off_lpm_final (b0 b1 : Bool) :
    (runOf onThenOff allOkEnv (stLpm b0 b1) 0).map
      (fun x => (x.1, x.2.1.dsi0.lpm, (x.2.1.dsi1).map DsiDev.lpm)) =
      some ((0, 0), true, some true) := by
  cases b0 <;> cases b1 <;> decide

/-- Counterexample to claim C1 as stated: when enabling the dvdd rail (index
5) fails with -22, prepare returns -22 with the vio rail (index 0) still
enabled and no bulk-disable performed, so power is not rolled back. -/
theorem nt35950_prepare_rail_fail_cex :
    (runOf nt35950_prepare (envRegFail 5 (-22)) st0 0).map
      (fun x => (x.1, x.2.1.prepared, x.2.1.railEnabled, hasBulkDisable x.2.2.1)) =
      some (-22, false, [true, false, false, false, false, false], false) := by decide

/-- Counterexample to claim C2 as stated: when the display-off write fails
with -22, run_off stops immediately after logging: it returns -22, the
enter-sleep write never happens, and the low-power-mode flag stays cleared on
both endpoints. -/
theorem nt35950_off_continues_cex :
    (runOf nt35950_off (envWriteFail 0 (-22)) (stLpm false false) 0).map
      (fun x => (x.1, hasEnterSleep x.2.2.1, x.2.1.dsi0.lpm,
                 (x.2.1.dsi1).map DsiDev.lpm)) =
      some (-22, false, false, some false) := by decide

/-- Counterexample to claim C10 as stated: probe succeeds (returns 0) both
when the bulk regulator acquisition fails with -22 and when the vddio rail
fails its voltage-range validation, so a validation failure does not reject
the descriptor. -/
theorem nt35950_vreg_failure_cex :
    (runOf nt35950_probe (envBulkGetFail (-22)) (preSt sharp_ls055d1sx04) 0).map
      (fun x => x.1) = some 0 ∧
    (runOf nt35950_probe (envVoltFail 0) (preSt sharp_ls055d1sx04) 0).map
      (fun x => x.1) = some 0 := by decide

/-- Claim C2 (amended): run_off aborts at the first failing step rather than
continuing: if the display-off write fails, run_off logs the failure and
returns the error immediately, with no enter-sleep write and the
low-power-mode flags left unchanged on both endpoints. -/
theorem nt35950_off_abort_on_first_failure (env : Env) (st : NtState) (wc : Nat)
    (h : env.writeRet wc < 0) :
    nt35950_off env st wc =
      .ok (env.writeRet wc, st,
           [Event.dcs 0 DcsOp.displayOff, Event.logErr], wc + 1) := by
  simp [nt35950_off, h]

/-- Witness for the amended C2 with the display-off write failing with -22. -/
theorem nt35950_off_abort_on_first_failure_witness :
    (envWriteFail 0 (-22)).writeRet 0 < 0 ∧
    nt35950_off (envWriteFail 0 (-22)) (stLpm false false) 0 =
      .ok ((envWriteFail 0 (-22)).writeRet 0, stLpm false false,
           [Event.dcs 0 DcsOp.displayOff, Event.logErr], 0 + 1) :=
  ⟨by decide,
   nt35950_off_abort_on_first_failure (envWriteFail 0 (-22)) (stLpm false false) 0
     (by decide)⟩

def UnprepProp (env : Env) (st : NtState) (wc : Nat) : Prop :=
  match nt35950_unprepare env st wc with
  | .ok (r, st2, _, _) =>
      r = 0 ∧ st2.resetLevel = 0 ∧ st2.railEnabled = List.replicate 6 false ∧
      st2.prepared = false
  | .crash => False

/-- Claim C3: unprepare called in the prepared state always drives the reset
line to 0, bulk-disables all power rails, sets prepared to false and returns
success, for every environment, in particular whatever the off-script writes
return. -/
theorem nt35950_unprepare_always_cleans_up (env : Env) (st : NtState) (wc : Nat)
    (d : DsiDev) (h1 : st.prepared = true) (h2 : st.dsi1 = some d) :
    UnprepProp env st wc := by
  by_cases ha : env.writeRet wc < 0
  · simp [UnprepProp, nt35950_unprepare, nt35950_off, h1, h2, ha]
  · by_cases hb : env.writeRet (wc + 1) < 0
    · simp [UnprepProp, nt35950_unprepare, nt35950_off, h1, h2, ha, hb]
    · simp [UnprepProp, nt35950_unprepare, nt35950_off, h1, h2, ha, hb]

/-- Witness for C3: unprepare of a prepared dual-link panel in the
all-success environment. -/
theorem nt35950_unprepare_always_cleans_up_witness :
    ({ st0 with prepared := true } : NtState).prepared = true ∧
    ({ st0 with prepared := true } : NtState).dsi1 =
      some { lanes := 4, videoMode := false, lpm := true } ∧
    UnprepProp allOkEnv { st0 with prepared := true } 0 :=
  ⟨by decide, by decide,
   nt35950_unprepare_always_cleans_up allOkEnv { st0 with prepared := true } 0
     { lanes := 4, videoMode := false, lpm := true } (by decide) (by decide)⟩

def SingleLinkProp (desc : PanelDesc) : Prop :=
  match nt35950_probe allOkEnv (preSt desc) 0 with
  | .ok (r, st2, _, _) =>
      r = 0 ∧ st2.dsi1 = none ∧
      nt35950_prepare allOkEnv st2 0 = .crash ∧
      nt35950_unprepare allOkEnv { st2 with prepared := true } 0 = .crash
  | .crash => False

/-- Claim C7: for every descriptor with the dual-link flag cleared, probe
succeeds and leaves the secondary endpoint handle unpopulated, and a
subsequent prepare (or an unprepare in the prepared state) dereferences the
null secondary handle, modelled as the crash outcome. -/
theorem nt35950_single_link_null_deref (desc : PanelDesc)
    (hd : desc.is_dual_dsi = false) : SingleLinkProp desc := by
  simp [SingleLinkProp, nt35950_probe, nt35950_sharp_init_vregs, nt35950_prepare,
        nt35950_unprepare, nt35950_on, nt35950_off, preSt, allOkEnv, hd]

/-- Witness for C7 at a concrete single-link descriptor. -/
theorem nt35950_single_link_null_deref_witness :
    ({ sharp_ls055d1sx04 with is_dual_dsi := false } : PanelDesc).is_dual_dsi = false ∧
    SingleLinkProp { sharp_ls055d1sx04 with is_dual_dsi := false } :=
  ⟨by decide,
   nt35950_single_link_null_deref { sharp_ls055d1sx04 with is_dual_dsi := false }
     (by decide)⟩

def hasLogErr : List Event → Bool
  | [] => false
  | .logErr :: _ => true
  | _ :: tl => hasLogErr tl

@[reducible] def BulkGetFailProp (e : Int) : Prop :=
  (runOf nt35950_probe (envBulkGetFail e) (preSt sharp_ls055d1sx04) 0).map
    (fun x => (x.1, x.2.1.prepared, hasLogErr x.2.2.1)) = some (0, false, true)

@[reducible] def VoltFailProp (i : Nat) : Prop :=
  (runOf nt35950_probe (envVoltFail i) (preSt sharp_ls055d1sx04) 0).map
    (fun x => (x.1, x.2.1.prepared, hasLogErr x.2.2.1)) = some (0, false, false)

/-- Claim C10 (amended): no construction failure comes from rail validation:
a failure of the bulk rail acquisition (any negative error other than
probe-deferral -517) is only logged, while a voltage-range validation failure
of any single rail is silently swallowed, with no log at all; in both cases
probe continues and still succeeds, so the descriptor is not rejected. -/
theorem nt35950_vreg_failure_nonfatal :
    (∀ e : Int, e < 0 → e ≠ -517 → BulkGetFailProp e) ∧
    (∀ i : Nat, i < 6 → VoltFailProp i) := by
  constructor
  · intro e h1 h2
    have h0 : e ≠ 0 := by omega
    simp [BulkGetFailProp, nt35950_probe, nt35950_sharp_init_vregs, envBulkGetFail,
          allOkEnv, preSt, sharp_ls055d1sx04, hasLogErr, h1, h2, h0]
  · intro i hi
    interval_cases i <;> decide

/-- Witness for the amended C10 with a -22 bulk-get failure and a vddio
voltage-validation failure. -/
theorem nt35950_vreg_failure_nonfatal_witness :
    ((-22 : Int) < 0 ∧ (-22 : Int) ≠ -517 ∧ BulkGetFailProp (-22)) ∧
    ((0 : Nat) < 6 ∧ VoltFailProp 0) :=
  ⟨⟨by decide, by decide, nt35950_vreg_failure_nonfatal.1 (-22) (by decide) (by decide)⟩,
   ⟨by decide, nt35950_vreg_failure_nonfatal.2 0 (by decide)⟩⟩

@[reducible] def PrepRegFailProp (i : Nat) (e : Int) : Prop :=
  (runOf nt35950_prepare (envRegFail i e) st0 0).map
    (fun x => (x.1, x.2.1.prepared, hasBulkDisable x.2.2.1, x.2.1.railEnabled)) =
    some (e, false, false, railsBeforeFail i)

@[reducible] def PrepWriteFailProp (k : Nat) (e : Int) : Prop :=
  (runOf nt35950_prepare (envWriteFail k e) st0 0).map
    (fun x => (x.1, x.2.1.prepared, hasBulkDisable x.2.2.1, x.2.1.railEnabled)) =
    some (e, false, true, List.replicate 6 false)

set_option maxHeartbeats 4000000 in
/-- Claim C1 (amended): every failure inside prepare returns the first error
to the caller with the prepared state still false, but power is rolled back
only for on-script failures: a rail-enable failure (any rail index, any
nonzero error) aborts immediately, leaving exactly the previously-enabled
rails enabled with no bulk-disable, while a failure of any of the 19
transport writes of the on-script ends with all rails bulk-disabled. -/
theorem nt35950_prepare_failure_paths :
    (∀ e : Int, e ≠ 0 → ∀ i ∈ [0, 5, 3, 4, 1, 2], PrepRegFailProp i e) ∧
    (∀ e : Int, e < 0 → ∀ k : Nat, k < 19 → PrepWriteFailProp k e) := by
  constructor
  · intro e he i hi
    fin_cases hi <;>
      simp [PrepRegFailProp, nt35950_prepare, envRegFail, allOkEnv, st0,
            sharp_ls055d1sx04, railsBeforeFail, hasBulkDisable, he]
  · intro e he k hk
    interval_cases k <;>
      simp [PrepWriteFailProp, nt35950_prepare, nt35950_on, envWriteFail, allOkEnv,
            st0, sharp_ls055d1sx04, hasBulkDisable, he]

/-- Witness for the amended C1: dvdd rail-enable failing with -22, and the
fourth on-script write failing with -22. -/
theorem nt35950_prepare_failure_paths_witness :
    ((-22 : Int) ≠ 0 ∧ (5 : Nat) ∈ [0, 5, 3, 4, 1, 2] ∧ PrepRegFailProp 5 (-22)) ∧
    ((-22 : Int) < 0 ∧ (3 : Nat) < 19 ∧ PrepWriteFailProp 3 (-22)) :=
  ⟨⟨by decide, by decide,
    nt35950_prepare_failure_paths.1 (-22) (by decide) 5 (by decide)⟩,
   ⟨by decide, by decide,
    nt35950_prepare_failure_paths.2 (-22) (by decide) 3 (by decide)⟩⟩
